import Mathlib

/-!
Shallow embedding of the data-plane transfer engine in `src/sock_raw.c`
(HAProxy raw stream-socket I/O core).

The embedding models one stream interface together with its input buffer
(`ib`), its output buffer (`ob`), its connection status, its poller
registration state, and the process-wide pipe-pool usage counter.  System
calls (`splice`, `recv`, `send`) are driven by explicit traces of results,
so every function is an executable Lean definition.  Calls into external
collaborators (poller registration, task wakeup, `fd_delete`,
`conn_data_close`, `setsockopt`, `si_chk_snd` on the peer, `si_shutw`) are
recorded as registration booleans / one-shot event flags in the state.

Timestamps (`rex`, `wex`, `exp`) follow the haproxy tick convention:
`none` is `TICK_ETERNITY` (timer unset), `some v` is a set tick.
-/

/-- Forwarding budget of a buffer: either a finite byte count or the
`BUF_INFINITE_FORWARD` sentinel. -/
inductive Fwd where
  | fin : Nat → Fwd
  | inf : Fwd
deriving DecidableEq

/-- C truth test `!b->to_forward` (the infinite sentinel is nonzero). -/
def Fwd.isZero : Fwd → Bool
  | .fin 0 => true
  | _ => false

/-- C comparison `b->to_forward >= n` (the infinite sentinel is the
largest value). -/
def Fwd.geN : Fwd → Nat → Bool
  | .inf, _ => true
  | .fin k, n => n ≤ k

/-- Modelled from the spec: a tick is unset (`TICK_ETERNITY`) or a future
time; `tick_isset` is `t ≠ none`.  `tick_add_ifset now t` arms a timer
`t` milliseconds from `now` when the timeout is configured, and keeps it
unset otherwise. -/
def tick_add_ifset (now : Nat) (t : Option Nat) : Option Nat :=
  t.map (fun d => now + d)

/-- The buffer of `src/sock_raw.c` (struct buffer): capacity `size`,
pending input `i`, pending output `o`, start offset `p` (ring offset of
the split between output and input data), forwarding budget, cumulative
`total`, the streamer streak counters, read/write expiration ticks and
timeouts, the optional pipe attachment (`some d` = attached pipe holding
`d` spliced bytes), and the `BF_*` flags used by this core as independent
booleans. -/
structure Buffer where
  size : Nat
  i : Nat
  o : Nat
  p : Nat
  to_forward : Fwd
  total : Nat
  xfer_small : Nat
  xfer_large : Nat
  rex : Option Nat
  wex : Option Nat
  rto : Option Nat
  wto : Option Nat
  pipe : Option Nat
  full : Bool
  out_empty : Bool
  read_null : Bool
  read_part : Bool
  write_null : Bool
  write_part : Bool
  write_error : Bool
  shutr : Bool
  shutr_now : Bool
  shutw : Bool
  shutw_now : Bool
  auto_close : Bool
  hijack : Bool
  dont_read : Bool
  read_noexp : Bool
  read_dontwait : Bool
  never_wait : Bool
  expect_more : Bool
  send_dontwait : Bool
  kern_splicing : Bool
  streamer : Bool
  streamer_fast : Bool
deriving DecidableEq

/-- Stream interface states (enum si_state, abstracted to the four values
this core inspects). -/
inductive SiState where
  | INIT
  | CON
  | EST
  | DIS
deriving DecidableEq

/-- The stream interface together with its connection, its two buffers,
the poller registration state, the process-wide pipe-pool usage counter,
the `splice_detects_close` static, and one-shot event flags recording the
calls made into external collaborators. -/
structure SI where
  ib : Buffer
  ob : Buffer
  state : SiState
  err : Bool
  wait_room : Bool
  wait_data : Bool
  cap_splice : Bool
  nohalf : Bool
  nolinger : Bool
  indep_str : Bool
  dont_wake : Bool
  has_owner : Bool
  has_release : Bool
  exp : Option Nat
  conn_error : Bool
  conn_wait_l4 : Bool
  recv_active : Bool
  send_active : Bool
  fd_poll_in : Bool
  fd_poll_out : Bool
  fd_poll_hup : Bool
  pipes_used : Nat
  splice_detects_close : Bool
  ev_poll_recv : Bool
  ev_poll_send : Bool
  ev_chk_snd : Bool
  ev_conn_closed : Bool
  ev_fd_deleted : Bool
  ev_release : Bool
  ev_set_nolinger : Bool
  ev_task_woken : Bool
  ev_shutw : Bool
deriving DecidableEq

/-- Modelled from the spec: the global tunables consumed from
collaborators (§6) — pipe-pool capacity and allocation success,
`recv_enough`, the read/write loop iteration caps, and the minimum
short-read size (`MIN_RET_FOR_READ_LOOP`). -/
structure Tunables where
  maxpipes : Nat
  get_pipe_ok : Bool
  recv_enough : Nat
  max_read_poll : Nat
  max_write_poll : Nat
  min_ret_for_read_loop : Nat
deriving DecidableEq

/-- Pipe soft-fullness hint (`SPLICE_FULL_HINT = 16*1448`). -/
def SPLICE_FULL_HINT : Nat := 16 * 1448

/-- Per-call splice ceiling for infinite forwarding
(`MAX_SPLICE_AT_ONCE = 1<<30`). -/
def MAX_SPLICE_AT_ONCE : Nat := 2 ^ 30

/-- Modelled from the spec: minimum forwarding budget below which the
splice path is not attempted (`MIN_SPLICE_FORWARD`, defined in the
buffer headers that are not part of `src/`). -/
def MIN_SPLICE_FORWARD : Nat := 4096

/-- Result of one `splice` system call on the read side: `ok n` moved `n`
bytes, `closed` is a zero return, `again` is EAGAIN, `notsup` is
ENOSYS/EINVAL, `err` is any other errno. -/
inductive SpliceRes where
  | ok : Nat → SpliceRes
  | closed : SpliceRes
  | again : SpliceRes
  | notsup : SpliceRes
  | err : SpliceRes
deriving DecidableEq

/-- Result of one `recv` call: `ok 0` is an orderly close, `ok (n+1)`
received bytes, `again` is EAGAIN, `err` any other errno. -/
inductive RecvRes where
  | ok : Nat → RecvRes
  | again : RecvRes
  | err : RecvRes
deriving DecidableEq

/-- Result of one `send` (or write-side `splice`) call: `ok 0` wrote
nothing, `ok (n+1)` accepted bytes, `again` is EAGAIN, `err` any other
errno. -/
inductive SendRes where
  | ok : Nat → SendRes
  | again : SendRes
  | err : SendRes
deriving DecidableEq

/-- Modelled from the spec: `put_pipe` on the input buffer returns the
relay to the pool (`b->pipe = NULL`, global count decremented). -/
def put_pipe_ib (s : SI) : SI :=
  {s with pipes_used := s.pipes_used - 1, ib := {s.ib with pipe := none}}

/-- Modelled from the spec: `put_pipe` on the output buffer. -/
def put_pipe_ob (s : SI) : SI :=
  {s with pipes_used := s.pipes_used - 1, ob := {s.ob with pipe := none}}

/-- Modelled from the spec: `b_adv(b, adv)` promotes `adv` bytes from
pending input to pending output, advancing the start offset within the
ring. -/
def b_adv (b : Buffer) (adv : Nat) : Buffer :=
  {b with p := (b.p + adv) % b.size, i := b.i - adv, o := b.o + adv}

/-- Full close (`do_close` label of `sock_raw_read0`, lines 667-674):
release the connection, delete the descriptor (dropping its poller
registrations), move to `SI_ST_DIS`, clear the interface timeout and run
the release callback when one is registered. -/
def do_close (s : SI) : SI :=
  { s with
    ev_conn_closed := true
    ev_fd_deleted := true
    recv_active := false
    send_active := false
    state := SiState.DIS
    exp := none
    ev_release := s.ev_release || s.has_release }

/-- `sock_raw_read0` (lines 633-675): propagate a null read.  Clears the
pending read-shutdown request, is a no-op when the input is already shut,
otherwise marks the input shut, clears its timer and the wait-for-room
flag, and then either half-closes (stop reading) or, with `SI_FL_NOHALF`
or a peer output already shut, fully closes — disabling lingering first
when `SI_FL_NOLINGER` was explicitly set. -/
def sock_raw_read0 (s0 : SI) : SI :=
  let s := {s0 with ib := {s0.ib with shutr_now := false}}
  if s.ib.shutr then s
  else
    let s := {s with ib := {s.ib with shutr := true, rex := none}, wait_room := false}
    if ¬(s.state = SiState.EST ∨ s.state = SiState.CON) then s
    else if s.ob.shutw then do_close s
    else if s.nohalf then
      if s.nolinger then do_close {s with nolinger := false, ev_set_nolinger := true}
      else do_close s
    else {s with recv_active := false}

/-- Streamer classification on a pass that left the buffer completely
full (lines 325-352 of `sock_raw_read`): a single-call fill bumps the
large streak and can promote to fast streamer at streak 3; a half-or-less
read while already classified bumps the small streak and demotes from
fast streamer at streak 2; any other full pass resets both streaks. -/
def classify_full (b : Buffer) (cur_read : Nat) : Buffer :=
  if b.streamer_fast = false ∧ cur_read = b.i + b.o then
    let xl := b.xfer_large + 1
    { b with
      xfer_small := 0
      xfer_large := xl
      streamer := b.streamer || decide (3 ≤ xl)
      streamer_fast := b.streamer_fast || decide (3 ≤ xl) }
  else if (b.streamer || b.streamer_fast) ∧ cur_read ≤ b.size / 2 then
    let xs := b.xfer_small + 1
    { b with
      xfer_large := 0
      xfer_small := xs
      streamer_fast := if 2 ≤ xs then false else b.streamer_fast }
  else
    {b with xfer_small := 0, xfer_large := 0}

/-- Streamer classification on a short read that did not fill the buffer
(lines 365-378 of `sock_raw_read`): reading at most half the buffer while
classified bumps the small streak, and streak 3 clears the whole
classification. -/
def classify_short (b : Buffer) (cur_read : Nat) : Buffer :=
  if (b.streamer || b.streamer_fast) ∧ cur_read ≤ b.size / 2 then
    let xs := b.xfer_small + 1
    { b with
      xfer_large := 0
      xfer_small := xs
      streamer := if 3 ≤ xs then false else b.streamer
      streamer_fast := if 3 ≤ xs then false else b.streamer_fast }
  else b

/-- Direct forwarding of freshly received bytes (lines 302-311 of
`sock_raw_read`): with a non-zero budget and no (pending) write shutdown,
promote the received bytes to pending output, clamped to a finite budget
which is decremented by the promoted amount. -/
def read_forward (b : Buffer) (ret : Nat) : Buffer :=
  if b.to_forward.isZero = false ∧ b.shutw = false ∧ b.shutw_now = false then
    match b.to_forward with
    | .inf => b_adv b ret
    | .fin tf => b_adv {b with to_forward := .fin (tf - min ret tf)} (min ret tf)
  else b

/-- `out_error` label (lines 446-449 and 621-625): mark the connection
errored and stop both I/O directions. -/
def out_error (s : SI) : SI :=
  {s with conn_error := true, recv_active := false, send_active := false}

/-- `out_shutdown_r` label (lines 437-444): acknowledge the hang-up
event, record the null read, request a write shutdown when the buffer
auto-closes, and run the read-shutdown sequence. -/
def out_shutdown_r (s : SI) : SI :=
  let s1 := {s with fd_poll_hup := false, ib := {s.ib with read_null := true}}
  let s2 := if s1.ib.auto_close then {s1 with ib := {s1.ib with shutw_now := true}} else s1
  sock_raw_read0 s2

/-- Per-iteration splice request size (lines 119-122): the remaining
forward budget, or `MAX_SPLICE_AT_ONCE` under infinite forwarding. -/
def spliceMax (b : Buffer) : Nat :=
  match b.to_forward with
  | .inf => MAX_SPLICE_AT_ONCE
  | .fin k => k

/-- The `while (1)` loop of `sock_raw_splice_in` (lines 118-204), driven
by the trace of `splice` results.  Returns the `retval` of the function
together with the updated state; an exhausted trace ends the call with
the running `retval 0` (no further system-call observation is modelled). -/
def splice_loop (t : Tunables) : List SpliceRes → SI → Int × SI
  | tr, s =>
    if spliceMax s.ib = 0 then (-1, s)
    else
      match tr with
      | [] => (0, s)
      | r :: rest =>
        match r with
        | .closed =>
          (0, { s with
                splice_detects_close := true
                ib := {s.ib with read_null := true} })
        | .again =>
          if s.ib.pipe.getD 0 ≠ 0 then (0, {s with wait_room := true})
          else if s.splice_detects_close then (0, {s with ev_poll_recv := true})
          else (-1, s)
        | .notsup =>
          (-1, put_pipe_ib { s with
                             cap_splice := false
                             ib := {s.ib with kern_splicing := false} })
        | .err => (0, {s with err := true})
        | .ok n =>
          let b := s.ib
          let b1 := { b with
                      to_forward := match b.to_forward with
                                    | .inf => Fwd.inf
                                    | .fin k => Fwd.fin (k - n)
                      total := b.total + n
                      pipe := some (b.pipe.getD 0 + n)
                      read_part := true
                      out_empty := false }
          let s1 := {s with ib := b1}
          if SPLICE_FULL_HINT ≤ b1.pipe.getD 0 ∨ t.recv_enough ≤ n then (0, s1)
          else splice_loop t rest s1

/-- `sock_raw_splice_in` (lines 82-212): the zero-copy read attempt.
Returns `-1` when the caller must (also) use the copy path, `0`
otherwise, plus the updated state.  Refuses to splice when pending bytes
coexist in the buffer; allocates a pipe from the bounded pool, disabling
kernel splicing for the buffer when the pool is exhausted; and releases
the pipe the moment it is left empty. -/
def sock_raw_splice_in (t : Tunables) (tr : List SpliceRes) (s : SI) : Int × SI :=
  if s.ib.to_forward.isZero then (-1, s)
  else if s.ib.kern_splicing = false then (-1, s)
  else if s.ib.i + s.ib.o ≠ 0 then
    (0, { s with
          wait_room := true
          recv_active := false
          ev_chk_snd := true
          ib := {s.ib with rex := none} })
  else
    let acq : Option SI :=
      match s.ib.pipe with
      | some _ => some s
      | none =>
        if t.maxpipes ≤ s.pipes_used ∨ t.get_pipe_ok = false then none
        else some {s with pipes_used := s.pipes_used + 1, ib := {s.ib with pipe := some 0}}
    match acq with
    | none => (-1, {s with ib := {s.ib with kern_splicing := false}})
    | some s1 =>
      let rs := splice_loop t tr s1
      if rs.2.ib.pipe = some 0 then (rs.1, put_pipe_ib rs.2) else rs

/-- Realignment before a receive (lines 281-284): an empty buffer has its
start offset reset to 0 to maximise the contiguous free extent. -/
def copy_realign (b : Buffer) : Buffer :=
  if b.i + b.o = 0 then {b with p := 0} else b

/-- The largest single receive size honoring wrap-around
(lines 270 and 285-291): the available space, clamped at the physical end
of the buffer when the free region wraps. -/
def copy_recv_max (b1 : Buffer) : Nat :=
  if b1.i + b1.o ≠ 0 ∧ b1.o < b1.p ∧ b1.p + b1.i < b1.size then
    min (b1.size - (b1.i + b1.o)) (b1.size - (b1.p + b1.i))
  else b1.size - (b1.i + b1.o)

/-- One iteration of the bounded copy-read loop of `sock_raw_read`
(lines 269-433): realign an empty buffer, compute the largest contiguous
receivable extent honoring wrap-around, and dispatch on the `recv`
result.  Returns the updated state together with `some cur` when the
loop is to run another iteration with `cur` bytes accumulated so far,
and `none` when the call ends. -/
def copy_iter (t : Tunables) (read_poll cur_read : Nat) : RecvRes → SI → SI × Option Nat
  | .again, s =>
    if cur_read < t.min_ret_for_read_loop then
      ({s with ib := copy_realign s.ib, ev_poll_recv := true}, none)
    else ({s with ib := copy_realign s.ib}, none)
  | .err, s => (out_error {s with ib := copy_realign s.ib}, none)
  | .ok n, s =>
    if n = 0 then (out_shutdown_r {s with ib := copy_realign s.ib}, none)
    else
      let b1 := copy_realign s.ib
      let mx := copy_recv_max b1
      let b2 := {b1 with i := b1.i + n}
      let b3 := read_forward b2 n
      let s2 := if s.conn_wait_l4 then {s with conn_wait_l4 := false, exp := none} else s
      let b4 := {b3 with read_part := true, total := b3.total + n}
      let cur := cur_read + n
      if b4.size - (b4.i + b4.o) = 0 then
        let b5 := classify_full b4 cur
        ({s2 with ib := {b5 with full := true}, wait_room := true}, none)
      else if n < mx then
        let b5 := classify_short b4 cur
        if s2.fd_poll_hup then (out_shutdown_r {s2 with ib := b5}, none)
        else if b5.streamer then ({s2 with ib := b5}, none)
        else if n < t.min_ret_for_read_loop ∧ b5.streamer then ({s2 with ib := b5}, none)
        else if t.recv_enough ≤ n then ({s2 with ib := b5}, none)
        else if b5.read_dontwait ∨ read_poll ≤ 1 then ({s2 with ib := b5}, none)
        else ({s2 with ib := b5}, some cur)
      else if b4.read_dontwait ∨ read_poll ≤ 1 then ({s2 with ib := b4}, none)
      else ({s2 with ib := b4}, some cur)

/-- The bounded copy-read loop of `sock_raw_read` (lines 268-433), driven
by the trace of `recv` results.  Each pass first stops on a full buffer
(setting the full and wait-for-room flags), then runs `copy_iter` on the
next `recv` result; `read_poll` is the remaining iteration budget and
`cur_read` the bytes accumulated by this call. -/
def copy_loop (t : Tunables) : List RecvRes → Nat → Nat → SI → SI
  | rtr, read_poll, cur_read, s =>
    if s.ib.size - (s.ib.i + s.ib.o) = 0 then
      {s with ib := {s.ib with full := true}, wait_room := true}
    else
      match rtr with
      | [] => {s with ib := copy_realign s.ib}
      | r :: rest =>
        match copy_iter t read_poll cur_read r s with
        | (s1, none) => s1
        | (s1, some cur) => copy_loop t rest (read_poll - 1) cur s1

/-- `sock_raw_read` (lines 220-450): the read-event handler.  Stops on a
pre-existing connection error, turns a pure hang-up event into a read
shutdown, returns on an already-shut input, attempts the zero-copy path
when the forward budget and buffer flags allow it, and otherwise (or when
the splice path asks for it) runs the copy-read loop. -/
def sock_raw_read (t : Tunables) (str : List SpliceRes) (rtr : List RecvRes) (s : SI) : SI :=
  if s.conn_error then out_error s
  else if s.fd_poll_hup ∧ s.fd_poll_in = false then out_shutdown_r s
  else if s.ib.shutr then s
  else if s.ib.to_forward.geN MIN_SPLICE_FORWARD ∧ s.ib.kern_splicing then
    if s.fd_poll_hup then out_shutdown_r s
    else
      let rs := sock_raw_splice_in t str s
      if 0 ≤ rs.1 then
        if rs.2.err then out_error rs.2
        else if rs.2.ib.read_null then out_shutdown_r rs.2
        else rs.2
      else copy_loop t rtr t.max_read_poll 0 rs.2
  else copy_loop t rtr t.max_read_poll 0 s

/-- The `MSG_MORE` decision of the copy write loop (lines 524-537): hint
the kernel that more data follows when a finite forward budget remains or
more data is expected (unless the buffer must never wait), when this send
completes a pending write-shutdown, or when the sendable extent wraps;
`BF_SEND_DONTWAIT` overrides the hint. -/
def write_msg_more (b : Buffer) (mx : Nat) : Bool :=
  let fin_nonzero :=
    match b.to_forward with
    | .fin k => k != 0
    | .inf => false
  ((!b.never_wait && (fin_nonzero || b.expect_more)) ||
   (!b.shutw && b.shutw_now && !b.hijack && mx == b.o) ||
   (mx != b.o)) && !b.send_dontwait

/-- The contiguous sendable extent (lines 507-511): pending output,
clamped to the part before the physical end when the output region
wraps. -/
def send_mx (b : Buffer) : Nat :=
  if b.p < b.o then b.o - b.p else b.o

/-- Buffer bookkeeping after a send accepted `n` bytes (lines 557-565):
mark write activity, release the sent bytes, realign an emptied buffer
and drop the full flag when space is available again. -/
def send_update (b : Buffer) (n : Nat) : Buffer :=
  let b1 := {b with write_part := true, o := b.o - n}
  let b2 := if b1.i + b1.o = 0 then {b1 with p := 0} else b1
  if b2.size - (b2.i + b2.o) ≠ 0 then {b2 with full := false} else b2

/-- The buffered-data `while (1)` loop of `sock_raw_write_loop`
(lines 498-592), driven by the trace of `send` results.  `wp` is the
remaining write-poll budget. -/
def send_buf_loop (t : Tunables) : List SendRes → Nat → SI → Int × SI
  | [], _, s => (0, s)
  | .again :: _, _, s => (0, {s with ev_poll_send := true})
  | .err :: _, _, s => (-1, s)
  | .ok n :: rest, wp, s =>
    let _more := write_msg_more s.ob (send_mx s.ob)
    if n = 0 then (0, {s with ev_poll_send := true})
    else
      let s1 := if s.conn_wait_l4 then {s with conn_wait_l4 := false, exp := none} else s
      let b3 := send_update s.ob n
      if b3.o = 0 then
        let b4 := {b3 with expect_more := false, send_dontwait := false}
        let b5 := if b4.pipe = none then {b4 with out_empty := true} else b4
        (0, {s1 with ob := b5})
      else if n < send_mx s.ob then (0, {s1 with ob := b3})
      else if wp ≤ 1 then (0, {s1 with ob := b3})
      else send_buf_loop t rest (wp - 1) {s1 with ob := b3}

/-- Entry to the buffered part of the write loop (lines 498-501): with no
pending output bytes, mark the output empty and succeed. -/
def write_buf_enter (t : Tunables) (str : List SendRes) (s : SI) : Int × SI :=
  if s.ob.o = 0 then (0, {s with ob := {s.ob with out_empty := true}})
  else send_buf_loop t str t.max_write_poll s

/-- `sock_raw_write_loop` (lines 457-593): drain the attached pipe first
(one write-side `splice` observation `pres`), releasing it once empty,
then fall through to the buffered send loop.  Returns `-1` on an
unrecoverable error, `0` otherwise. -/
def sock_raw_write_loop (t : Tunables) (pres : Option SendRes) (str : List SendRes)
    (s : SI) : Int × SI :=
  match s.ob.pipe with
  | none => write_buf_enter t str s
  | some d =>
    match pres with
    | none => (0, s)
    | some r =>
      match r with
      | .again => (0, {s with ev_poll_send := true})
      | .err => (-1, s)
      | .ok n =>
        if n = 0 then (0, {s with ev_poll_send := true})
        else
          let s1 := {s with ob := {s.ob with write_part := true, pipe := some (d - n)}}
          if d - n = 0 then write_buf_enter t str (put_pipe_ob s1)
          else if t.max_write_poll ≤ 1 then (0, s1)
          else (0, {s1 with ev_poll_send := true})

/-- `sock_raw_write` (lines 599-626): the write-event handler.  Stops on
a pre-existing connection error or an already-shut output, then runs the
write loop, turning its failure into a connection error. -/
def sock_raw_write (t : Tunables) (pres : Option SendRes) (str : List SendRes) (s : SI) : SI :=
  if s.conn_error then out_error s
  else if s.ob.shutw then s
  else
    let rs := sock_raw_write_loop t pres str s
    if rs.1 < 0 then out_error rs.2 else rs.2

/-- `sock_raw_data_finish` (lines 683-755): reconcile descriptor
registration and timeouts with the buffer flags after an I/O pass.  Each
non-shut direction either stops (clearing its timer) or (re)registers,
arming its expiration only when it was unset; arming the write timer also
refreshes a running read timer unless independent stream timeouts were
configured.  The read half (lines 697-719) is `data_finish_read`. -/
def data_finish_read (now : Nat) (s : SI) : SI :=
  if s.ib.shutr then s
  else if s.ib.full ∨ s.ib.hijack ∨ s.ib.dont_read then
    if s.wait_room = false then
      let s1a :=
        if s.ib.full ∧ s.ib.hijack = false ∧ s.ib.dont_read = false then
          {s with wait_room := true}
        else s
      {s1a with recv_active := false, ib := {s1a.ib with rex := none}}
    else s
  else
    let s1a := {s with wait_room := false, recv_active := true}
    if s1a.ib.read_noexp = false ∧ s1a.ib.dont_read = false ∧ s1a.ib.rex = none then
      {s1a with ib := {s1a.ib with rex := tick_add_ifset now s1a.ib.rto}}
    else s1a

/-- Write half of the reconciliation step (lines 721-754). -/
def data_finish_write (now : Nat) (s1 : SI) : SI :=
  if s1.ob.shutw then s1
  else if s1.ob.out_empty then
    if s1.wait_data = false then
      let s2a :=
        if s1.ob.full = false ∧ s1.ob.hijack = false ∧ s1.ob.shutw_now = false then
          {s1 with wait_data := true}
        else s1
      {s2a with send_active := false, ob := {s2a.ob with wex := none}}
    else s1
  else
    let s2a := {s1 with wait_data := false, send_active := true}
    if s2a.ob.wex = none then
      let s2b := {s2a with ob := {s2a.ob with wex := tick_add_ifset now s2a.ob.wto}}
      if s2b.ib.rex ≠ none ∧ s2b.indep_str = false then
        {s2b with ib := {s2b.ib with rex := tick_add_ifset now s2b.ib.rto}}
      else s2b
    else s2a

/-- `sock_raw_data_finish` proper: the read half (lines 697-719) followed
by the write half. -/
def sock_raw_data_finish (now : Nat) (s : SI) : SI :=
  data_finish_write now (data_finish_read now s)

/-- `sock_raw_chk_rcv` (lines 762-788): the consumer-to-producer
notification.  On an established, non-shut input, either stop reading
(setting wait-for-room when only fullness blocks) or (re)start read
registration.  It touches no timers. -/
def sock_raw_chk_rcv (s : SI) : SI :=
  if ¬(s.state = SiState.EST) ∨ s.ib.shutr then s
  else if s.ib.full ∨ s.ib.hijack ∨ s.ib.dont_read then
    let s1 :=
      if s.ib.full ∧ s.ib.hijack = false ∧ s.ib.dont_read = false then
        {s with wait_room := true}
      else s
    {s1 with recv_active := false}
  else {s with wait_room := false, recv_active := true}

/-- Task wakeup (`out_wakeup` label, lines 884-887): wake the owning task
unless wakeups are suppressed or there is no owner. -/
def wake_owner (s : SI) : SI :=
  if s.dont_wake = false ∧ s.has_owner then {s with ev_task_woken := true} else s

/-- Write-registration and timer reconciliation inside `chk_snd`
(lines 833-858): on an empty output either plan to wait for data and
clear the write timer, or re-register for writes, arming an unset write
timer. -/
def chk_snd_reg (now : Nat) (s1 : SI) : SI :=
  if s1.ob.out_empty then
    let s2a : SI :=
      if s1.ob.shutw = false ∧ s1.ob.shutw_now = false ∧
         s1.ob.full = false ∧ s1.ob.hijack = false then
        {s1 with wait_data := true}
      else s1
    {s2a with ob := {s2a.ob with wex := none}}
  else
    let s2a : SI := {s1 with send_active := true, wait_data := false}
    if s2a.ob.wex = none then
      {s2a with ob := {s2a.ob with wex := tick_add_ifset now s2a.ob.wto}}
    else s2a

/-- Write-activity timer refresh inside `chk_snd` (lines 860-876): after
write activity, refresh the write timer on a partial write and refresh a
running read timer unless independent stream timeouts are set. -/
def chk_snd_activity (now : Nat) (s2 : SI) : SI :=
  if s2.ob.write_null || s2.ob.write_part || s2.ob.write_error then
    let s3a : SI :=
      if s2.ob.write_part ∧ s2.ob.out_empty = false ∧ s2.ob.shutw = false then
        {s2 with ob := {s2.ob with wex := tick_add_ifset now s2.ob.wto}}
      else s2
    if s3a.ib.rex.isSome ∧ s3a.indep_str = false then
      {s3a with ib := {s3a.ib with rex := tick_add_ifset now s3a.ib.rto}}
    else s3a
  else s2

/-- Completion wakeup inside `chk_snd` (lines 878-887). -/
def chk_snd_wake (s3 : SI) : SI :=
  if s3.ob.write_null || s3.ob.write_error || s3.ob.shutw ||
     (s3.ob.out_empty && s3.ob.to_forward.isZero) || decide (¬(s3.state = SiState.EST)) then
    wake_owner s3
  else s3

/-- Tail of `sock_raw_chk_snd` after the write loop ran (lines 819-888):
error handling, the optional write-shutdown request, then registration,
activity refresh and completion wakeup.  `rs` is the (status, state)
pair of the write loop. -/
def chk_snd_post (_t : Tunables) (now : Nat) (rs : Int × SI) : SI :=
  if rs.1 < 0 then
    wake_owner { rs.2 with
                 conn_error := true
                 fd_poll_hup := false
                 recv_active := false
                 send_active := false
                 err := true }
  else
    let s1 : SI := rs.2
    if s1.ob.out_empty ∧ s1.ob.auto_close ∧ s1.ob.shutw_now ∧
       s1.ob.shutw = false ∧ s1.ob.hijack = false ∧ s1.state = SiState.EST then
      wake_owner {s1 with ev_shutw := true}
    else chk_snd_wake (chk_snd_activity now (chk_snd_reg now s1))

/-- `sock_raw_chk_snd` (lines 796-888): the producer-to-consumer
notification.  After the guard paths (not established, output shut or
empty, nothing urging a send), it runs the write loop and then
`chk_snd_post`. -/
def sock_raw_chk_snd (t : Tunables) (now : Nat) (pres : Option SendRes)
    (str : List SendRes) (s : SI) : SI :=
  if ¬(s.state = SiState.EST) ∨ s.ob.shutw then s
  else if s.ob.out_empty then s
  else if s.ob.pipe = none ∧ (s.wait_data = false ∨ s.fd_poll_out) then s
  else chk_snd_post t now (sock_raw_write_loop t pres str s)

/-- A quiescent buffer used as the base of concrete test states. -/
def buf0 : Buffer :=
  { size := 16, i := 0, o := 0, p := 0, to_forward := Fwd.fin 0, total := 0,
    xfer_small := 0, xfer_large := 0, rex := none, wex := none, rto := some 10,
    wto := some 20, pipe := none, full := false, out_empty := false,
    read_null := false, read_part := false, write_null := false,
    write_part := false, write_error := false, shutr := false, shutr_now := false,
    shutw := false, shutw_now := false, auto_close := false, hijack := false,
    dont_read := false, read_noexp := false, read_dontwait := false,
    never_wait := false, expect_more := false, send_dontwait := false,
    kern_splicing := false, streamer := false, streamer_fast := false }

/-- An established, splice-capable stream interface used as the base of
concrete test states. -/
def si0 : SI :=
  { ib := buf0, ob := buf0, state := SiState.EST, err := false, wait_room := false,
    wait_data := false, cap_splice := true, nohalf := false, nolinger := false,
    indep_str := false, dont_wake := false, has_owner := true, has_release := true,
    exp := none, conn_error := false, conn_wait_l4 := false, recv_active := true,
    send_active := false, fd_poll_in := false, fd_poll_out := false,
    fd_poll_hup := false, pipes_used := 0, splice_detects_close := false,
    ev_poll_recv := false, ev_poll_send := false, ev_chk_snd := false,
    ev_conn_closed := false, ev_fd_deleted := false, ev_release := false,
    ev_set_nolinger := false, ev_task_woken := false, ev_shutw := false }

/-- Concrete tunables for the test states. -/
def tun0 : Tunables :=
  { maxpipes := 4, get_pipe_ok := true, recv_enough := 7300, max_read_poll := 8,
    max_write_poll := 8, min_ret_for_read_loop := 2920 }

/-- Dropping a pending shut-read request from a buffer that has none is
the identity. -/
theorem buffer_clear_shutr_now (b : Buffer) (h : b.shutr_now = false) :
    ({b with shutr_now := false} : Buffer) = b := by
  cases b
  simp_all

/-- Claim C4: a zero-copy read attempt on a buffer already holding
pending bytes is refused without touching the relay — no pipe is
acquired, nothing is spliced, the wait-for-room flag is set, read
registration is stopped, the read timer is cleared and the downstream
consumer is notified (`si_chk_snd`); nothing else changes. -/
theorem claim_C4_splice_refused (t : Tunables) (tr : List SpliceRes) (s : SI)
    (h1 : s.ib.to_forward.isZero = false)
    (h2 : s.ib.kern_splicing = true)
    (h3 : s.ib.i + s.ib.o ≠ 0) :
    sock_raw_splice_in t tr s =
      (0, { s with
            wait_room := true
            recv_active := false
            ev_chk_snd := true
            ib := {s.ib with rex := none} }) := by
  simp [sock_raw_splice_in, h1, h2, h3]

/-- Witness for C4: the refusal at a concrete state with 10 pending
buffered bytes. -/
theorem claim_C4_witness :
    sock_raw_splice_in tun0 []
        {si0 with ib := {buf0 with to_forward := Fwd.fin 100, kern_splicing := true, i := 10}} =
      (0, { {si0 with ib := {buf0 with to_forward := Fwd.fin 100, kern_splicing := true, i := 10}} with
            wait_room := true
            recv_active := false
            ev_chk_snd := true
            ib := { {si0 with ib := {buf0 with to_forward := Fwd.fin 100, kern_splicing := true, i := 10}}.ib
                    with rex := none} }) :=
  claim_C4_splice_refused tun0 []
    {si0 with ib := {buf0 with to_forward := Fwd.fin 100, kern_splicing := true, i := 10}}
    (by decide) (by decide) (by decide)

/-- Splice-eligible state with an empty buffer and the pipe pool
exhausted (`pipes_used` at the configured `tun0.maxpipes`). -/
def c1fix : SI :=
  {si0 with pipes_used := 4, ib := {buf0 with to_forward := Fwd.fin 100, kern_splicing := true}}

/-- Claim C1 counterexample: on pool exhaustion the splice attempt does
leave a flag that permanently disables zero-copy — it clears the buffer's
kernel-splicing flag — so a later call with a free pool still refuses the
zero-copy path and changes nothing. -/
theorem claim_C1_counterexample :
    c1fix.ib.kern_splicing = true ∧
    (sock_raw_splice_in tun0 [] c1fix).2.ib.kern_splicing = false ∧
    sock_raw_splice_in {tun0 with maxpipes := 8} [SpliceRes.ok 7]
        (sock_raw_splice_in tun0 [] c1fix).2 =
      (-1, (sock_raw_splice_in tun0 [] c1fix).2) := by
  decide

/-- Claim C1 (amended): when a zero-copy read attempt finds no relay
attached and the pipe pool is exhausted (outstanding count at capacity or
acquisition failure), the call falls back to the Copy path (`-1`), no
error or wait flag is set and the interface's splice capability is
untouched, but the buffer's kernel-splicing flag is cleared, so
subsequent calls on this buffer keep using the Copy path even once the
pool frees up. -/
theorem claim_C1_amended (t : Tunables) (tr : List SpliceRes) (s : SI)
    (h1 : s.ib.to_forward.isZero = false)
    (h2 : s.ib.kern_splicing = true)
    (h3 : s.ib.i + s.ib.o = 0)
    (h4 : s.ib.pipe = none)
    (h5 : t.maxpipes ≤ s.pipes_used ∨ t.get_pipe_ok = false) :
    sock_raw_splice_in t tr s = (-1, {s with ib := {s.ib with kern_splicing := false}}) := by
  simp [sock_raw_splice_in, h1, h2, h3, h4, h5]

/-- Witness for the amended C1 at the concrete exhausted-pool state. -/
theorem claim_C1_witness :
    sock_raw_splice_in tun0 [] c1fix = (-1, {c1fix with ib := {c1fix.ib with kern_splicing := false}}) :=
  claim_C1_amended tun0 [] c1fix (by decide) (by decide) (by decide) (by decide) (by decide)

/-- State whose input is already shut with a pending shut-read request
still posted. -/
def c7fix : SI := {si0 with ib := {buf0 with shutr := true, shutr_now := true}}

/-- State whose input is already shut with no pending shut-read
request. -/
def c7fix2 : SI := {si0 with ib := {buf0 with shutr := true}}

/-- Claim C7 counterexample: on a state whose input is already shut-read
but still carries the pending shut-read flag, the read-shutdown sequence
is not a no-op (it clears that flag). -/
theorem claim_C7_counterexample : sock_raw_read0 c7fix ≠ c7fix := by
  decide

/-- Claim C7 (amended): the read-shutdown sequence is a strict no-op on
every state whose input is already marked shut-read and whose pending
shut-read flag is clear — in particular on any state produced by a prior
invocation of the sequence, so invoking it twice in a row changes nothing
the second time; in general a second call can only clear the pending
shut-read flag. -/
theorem claim_C7_amended (s : SI) (h1 : s.ib.shutr = true) (h2 : s.ib.shutr_now = false) :
    sock_raw_read0 s = s := by
  simp only [sock_raw_read0, buffer_clear_shutr_now s.ib h2, h1, if_true]
  rw [← h1, ← h2]

/-- Witness for the amended C7 at a concrete already-shut state. -/
theorem claim_C7_witness : sock_raw_read0 c7fix2 = c7fix2 :=
  claim_C7_amended c7fix2 (by decide) (by decide)

/-- Established state with pending output, an unset write timer and the
wait-for-data flag set, so the send-readiness check proceeds to a real
send attempt. -/
def c2fix : SI := {si0 with wait_data := true, ob := {buf0 with o := 5}}

/-- Claim C2 counterexample: the send-readiness check does modify a
timer — on an established interface with pending output and an unset
write timer, a send attempt that returns EAGAIN leaves the write
expiration armed, so `chk_snd` is not timer-neutral in every state. -/
theorem claim_C2_counterexample :
    (sock_raw_chk_snd tun0 100 none [SendRes.again] c2fix).ob.wex ≠ c2fix.ob.wex := by
  decide

/-- Claim C2 (amended): the receive-readiness check never touches either
buffer (in particular both directions' expiration timestamps) in any
state, and the send-readiness check leaves the whole state unchanged on
each of its guard paths (interface not established or output shut; output
empty; no attached pipe while not waiting for data or a write event is
already pending) — but when it proceeds to an actual send attempt it may
arm or refresh the write timer and refresh the read timer, exactly like
the write path. -/
theorem claim_C2_amended :
    (∀ s : SI, (sock_raw_chk_rcv s).ib = s.ib ∧ (sock_raw_chk_rcv s).ob = s.ob) ∧
    (∀ (t : Tunables) (now : Nat) (pres : Option SendRes) (str : List SendRes) (s : SI),
      ¬(s.state = SiState.EST) ∨ s.ob.shutw = true →
        sock_raw_chk_snd t now pres str s = s) ∧
    (∀ (t : Tunables) (now : Nat) (pres : Option SendRes) (str : List SendRes) (s : SI),
      s.ob.out_empty = true → sock_raw_chk_snd t now pres str s = s) ∧
    (∀ (t : Tunables) (now : Nat) (pres : Option SendRes) (str : List SendRes) (s : SI),
      s.ob.pipe = none → (s.wait_data = false ∨ s.fd_poll_out = true) →
        sock_raw_chk_snd t now pres str s = s) := by
  refine ⟨?_, ?_, ?_, ?_⟩
  · intro s
    unfold sock_raw_chk_rcv
    split_ifs <;> simp
  · intro t now pres str s h
    unfold sock_raw_chk_snd
    rw [if_pos h]
  · intro t now pres str s h
    unfold sock_raw_chk_snd
    by_cases hc : ¬(s.state = SiState.EST) ∨ s.ob.shutw = true
    · rw [if_pos hc]
    · rw [if_neg hc, if_pos h]
  · intro t now pres str s h1 h2
    unfold sock_raw_chk_snd
    by_cases hc : ¬(s.state = SiState.EST) ∨ s.ob.shutw = true
    · rw [if_pos hc]
    · rw [if_neg hc]
      by_cases he : s.ob.out_empty = true
      · rw [if_pos he]
      · rw [if_neg he, if_pos ⟨h1, h2⟩]

/-- Witness for the amended C2: the receive check and a guarded send
check leave a concrete state untouched. -/
theorem claim_C2_witness :
    (sock_raw_chk_rcv si0).ib = si0.ib ∧
    sock_raw_chk_snd tun0 0 none [] {si0 with ob := {buf0 with out_empty := true}} =
      {si0 with ob := {buf0 with out_empty := true}} :=
  ⟨(claim_C2_amended.1 si0).1,
   claim_C2_amended.2.2.1 tun0 0 none [] {si0 with ob := {buf0 with out_empty := true}} rfl⟩

/-- Claim C5: on an orderly remote close with the interface active or
connecting and the peer output still open — with half-close suppression
disabled the input is marked shut, its timer cleared and read
registration stopped while everything else (connection, state, write
side) is untouched; with half-close suppression enabled a full close is
performed (connection released, descriptor removed, state disconnected,
interface timeout cleared, release callback run), requesting the abortive
no-linger close exactly when `SI_FL_NOLINGER` was set. -/
theorem claim_C5_halfclose (s : SI)
    (h1 : s.ib.shutr = false)
    (h2 : s.state = SiState.EST ∨ s.state = SiState.CON)
    (h3 : s.ob.shutw = false) :
    (s.nohalf = false →
      sock_raw_read0 s =
        { s with
          ib := {s.ib with shutr_now := false, shutr := true, rex := none}
          wait_room := false
          recv_active := false }) ∧
    (s.nohalf = true →
      (sock_raw_read0 s).state = SiState.DIS ∧
      (sock_raw_read0 s).ev_conn_closed = true ∧
      (sock_raw_read0 s).ev_fd_deleted = true ∧
      (sock_raw_read0 s).exp = none ∧
      (sock_raw_read0 s).ev_release = (s.ev_release || s.has_release) ∧
      (sock_raw_read0 s).ib.shutr = true ∧
      (sock_raw_read0 s).ib.rex = none ∧
      (sock_raw_read0 s).ev_set_nolinger = (s.ev_set_nolinger || s.nolinger)) := by
  constructor
  · intro hnh
    simp [sock_raw_read0, h1, h2, h3, hnh]
  · intro hnh
    by_cases hnl : s.nolinger = true
    · simp [sock_raw_read0, do_close, h1, h2, h3, hnh, hnl]
    · simp only [Bool.not_eq_true] at hnl
      simp [sock_raw_read0, do_close, h1, h2, h3, hnh, hnl]

/-- Witness for C5: full close at a concrete no-half, no-linger state. -/
theorem claim_C5_witness :
    (sock_raw_read0 {si0 with nohalf := true, nolinger := true}).state = SiState.DIS ∧
    (sock_raw_read0 {si0 with nohalf := true, nolinger := true}).ev_set_nolinger = true :=
  ⟨((claim_C5_halfclose {si0 with nohalf := true, nolinger := true}
      (by decide) (Or.inl (by decide)) (by decide)).2 (by decide)).1,
   by
    have h := ((claim_C5_halfclose {si0 with nohalf := true, nolinger := true}
      (by decide) (Or.inl (by decide)) (by decide)).2 (by decide)).2.2.2.2.2.2.2
    simpa using h⟩

/-- Claim C8: in the reconciliation step, when both directions are not
shut and being (re)registered (input not full/hijacked/blocked, output
not empty), a running write timer is never reset and an unset one is
armed from the configured timeout; an unset read timer is armed (when
expiration applies) and a running read timer is refreshed exactly when
the write timer was being armed and independent stream timeouts are not
configured — otherwise it is left alone, and an unset, non-expiring read
timer stays unset. -/
theorem claim_C8_timer_refresh (now : Nat) (s : SI)
    (hr1 : s.ib.shutr = false)
    (hr2 : s.ib.full = false)
    (hr3 : s.ib.hijack = false)
    (hr4 : s.ib.dont_read = false)
    (hw1 : s.ob.shutw = false)
    (hw2 : s.ob.out_empty = false) :
    (s.ob.wex ≠ none → (sock_raw_data_finish now s).ob.wex = s.ob.wex) ∧
    (s.ob.wex = none → (sock_raw_data_finish now s).ob.wex = tick_add_ifset now s.ob.wto) ∧
    (s.ib.rex = none → s.ib.read_noexp = false →
      (sock_raw_data_finish now s).ib.rex = tick_add_ifset now s.ib.rto) ∧
    (s.ib.rex = none → s.ib.read_noexp = true →
      (sock_raw_data_finish now s).ib.rex = none) ∧
    (s.ib.rex ≠ none →
      (sock_raw_data_finish now s).ib.rex =
        (if s.ob.wex = none ∧ s.indep_str = false then tick_add_ifset now s.ib.rto
         else s.ib.rex)) ∧
    (sock_raw_data_finish now s).recv_active = true ∧
    (sock_raw_data_finish now s).send_active = true := by
  unfold sock_raw_data_finish data_finish_write data_finish_read
  simp only [hr1, hr2, hr3, hr4, hw1, hw2]
  by_cases hrex : s.ib.rex = none
  · by_cases hnx : s.ib.read_noexp = false
    · by_cases hwex : s.ob.wex = none
      · by_cases hind : s.indep_str = false
        · simp_all [tick_add_ifset]
        · simp_all [tick_add_ifset]
      · simp_all [tick_add_ifset]
    · simp only [Bool.not_eq_false] at hnx
      by_cases hwex : s.ob.wex = none
      · simp_all [tick_add_ifset]
      · simp_all [tick_add_ifset]
  · by_cases hwex : s.ob.wex = none
    · by_cases hind : s.indep_str = false
      · simp_all [tick_add_ifset]
      · simp_all [tick_add_ifset]
    · simp_all [tick_add_ifset]

/-- Witness for C8 at a concrete state: unset write timer armed, running
read timer refreshed alongside it. -/
theorem claim_C8_witness :
    (sock_raw_data_finish 100 {si0 with ib := {buf0 with rex := some 50}}).ob.wex =
      tick_add_ifset 100 {si0 with ib := {buf0 with rex := some 50}}.ob.wto ∧
    (sock_raw_data_finish 100 {si0 with ib := {buf0 with rex := some 50}}).ib.rex =
      (if ({si0 with ib := {buf0 with rex := some 50}} : SI).ob.wex = none ∧
          ({si0 with ib := {buf0 with rex := some 50}} : SI).indep_str = false then
         tick_add_ifset 100 {si0 with ib := {buf0 with rex := some 50}}.ib.rto
       else {si0 with ib := {buf0 with rex := some 50}}.ib.rex) :=
  ⟨(claim_C8_timer_refresh 100 {si0 with ib := {buf0 with rex := some 50}}
      (by decide) (by decide) (by decide) (by decide) (by decide) (by decide)).2.1 (by decide),
   (claim_C8_timer_refresh 100 {si0 with ib := {buf0 with rex := some 50}}
      (by decide) (by decide) (by decide) (by decide) (by decide) (by decide)).2.2.2.2.1
     (by decide)⟩

/-- Claim C10: during the copy read path, received bytes are auto-promoted
from pending input to pending output only when the forwarding budget is
non-zero and neither the shut-write nor the pending shut-write flag is
set; with a finite budget the promoted amount is the received count
clamped to the budget and the budget decreases by exactly that amount,
while the infinite budget promotes everything and stays infinite. -/
theorem claim_C10_forward_budget (b : Buffer) (ret : Nat) :
    ((b.to_forward = Fwd.fin 0 ∨ b.shutw = true ∨ b.shutw_now = true) →
      read_forward b ret = b) ∧
    (∀ tf : Nat, b.to_forward = Fwd.fin tf → tf ≠ 0 → b.shutw = false → b.shutw_now = false →
      (read_forward b ret).o = b.o + min ret tf ∧
      (read_forward b ret).i = b.i - min ret tf ∧
      (read_forward b ret).to_forward = Fwd.fin (tf - min ret tf)) ∧
    (b.to_forward = Fwd.inf → b.shutw = false → b.shutw_now = false →
      (read_forward b ret).o = b.o + ret ∧
      (read_forward b ret).i = b.i - ret ∧
      (read_forward b ret).to_forward = Fwd.inf) := by
  refine ⟨?_, ?_, ?_⟩
  · intro h
    rcases h with h | h | h
    · simp [read_forward, h, Fwd.isZero]
    · simp [read_forward, h]
    · simp [read_forward, h]
  · intro tf htf hne hsw hswn
    have hz : (Fwd.fin tf).isZero = false := by
      cases tf with
      | zero => exact absurd rfl hne
      | succ k => rfl
    have hz2 : b.to_forward.isZero = false := by rw [htf]; exact hz
    simp [read_forward, hz, hz2, hsw, hswn, htf, b_adv]
  · intro hinf hsw hswn
    have hz : b.to_forward.isZero = false := by rw [hinf]; rfl
    simp [read_forward, hz, hsw, hswn, hinf, b_adv, Fwd.isZero]

/-- Witness for C10: promotion of 7 received bytes against a finite
budget of 5 at a concrete buffer. -/
theorem claim_C10_witness :
    (read_forward {buf0 with i := 7, to_forward := Fwd.fin 5} 7).o = buf0.o + min 7 5 ∧
    (read_forward {buf0 with i := 7, to_forward := Fwd.fin 5} 7).to_forward = Fwd.fin (5 - min 7 5) :=
  ⟨((claim_C10_forward_budget {buf0 with i := 7, to_forward := Fwd.fin 5} 7).2.1 5
      rfl (by decide) (by decide) (by decide)).1,
   ((claim_C10_forward_budget {buf0 with i := 7, to_forward := Fwd.fin 5} 7).2.1 5
      rfl (by decide) (by decide) (by decide)).2.2⟩

/-- State classified streamer and fast-streamer with a small streak of 1,
about to take a short read. -/
def c3fix : SI :=
  {si0 with ib := {buf0 with streamer := true, streamer_fast := true, xfer_small := 1}}

/-- Claim C3 counterexample: a copy-path read pass that receives a short
read of 3 bytes (at most half the 16-byte buffer, buffer not filled)
raises the small streak to 2 yet leaves the fast-streamer flag set — the
small streak reaching 2 demotes only on buffer-filling passes, not on
short reads. -/
theorem claim_C3_counterexample :
    (sock_raw_read tun0 [] [RecvRes.ok 3] c3fix).ib.xfer_small = 2 ∧
    (sock_raw_read tun0 [] [RecvRes.ok 3] c3fix).ib.streamer_fast = true := by
  decide

/-- Claim C3 (amended): the fast-streamer flag is set only by a pass that
completely fills the buffer in a single receive call when the large
streak reaches 3 (each such pass increments the large streak and resets
the small streak; short reads never set it); the streamer classification
is cleared entirely only by a short read of at most half the buffer that
raises the small streak to 3 (buffer-filling passes never clear the
streamer flag); and a small streak reaching 2 demotes from fast-streamer
without clearing the streamer flag only when it is reached on a pass that
filled the buffer while reading at most half of it — a small streak of 2
reached by short non-filling reads leaves fast-streamer set. -/
theorem claim_C3_amended (b : Buffer) (n : Nat) :
    (b.streamer_fast = false → n = b.i + b.o →
      (classify_full b n).xfer_large = b.xfer_large + 1 ∧
      (classify_full b n).xfer_small = 0 ∧
      ((classify_full b n).streamer_fast = true ↔ 2 ≤ b.xfer_large)) ∧
    ((classify_full b n).streamer_fast = true →
      b.streamer_fast = true ∨ (n = b.i + b.o ∧ 2 ≤ b.xfer_large)) ∧
    ((classify_short b n).streamer_fast = true → b.streamer_fast = true) ∧
    (b.streamer_fast = true → n ≤ b.size / 2 →
      ((classify_full b n).streamer_fast = false ↔ 1 ≤ b.xfer_small) ∧
      (classify_full b n).streamer = b.streamer) ∧
    (b.streamer = true ∨ b.streamer_fast = true → n ≤ b.size / 2 →
      (classify_short b n).xfer_small = b.xfer_small + 1 ∧
      ((classify_short b n).streamer = false ↔ (b.streamer = false ∨ 2 ≤ b.xfer_small)) ∧
      ((classify_short b n).streamer_fast = false ↔
        (b.streamer_fast = false ∨ 2 ≤ b.xfer_small))) ∧
    ((classify_short b n).streamer = false → b.streamer = false ∨
      (n ≤ b.size / 2 ∧ 2 ≤ b.xfer_small)) ∧
    ((classify_full b n).streamer = false → b.streamer = false) := by
  unfold classify_full classify_short
  split_ifs <;> simp_all
  all_goals (by_cases hxs : 2 ≤ b.xfer_small <;> simp_all)

/-- Witness for the amended C3: at the concrete classified buffer with a
small streak of 1, a short half-or-less read bumps the streak to 2 and
leaves both classification flags set. -/
theorem claim_C3_witness :
    (classify_short c3fix.ib 3).xfer_small = c3fix.ib.xfer_small + 1 ∧
    (classify_short c3fix.ib 3).streamer_fast = true := by
  have h := (claim_C3_amended c3fix.ib 3).2.2.2.2.1 (Or.inl (by decide)) (by decide)
  refine ⟨h.1, ?_⟩
  have h2 := h.2.2
  by_contra hne
  simp only [Bool.not_eq_true] at hne
  have := h2.mp hne
  revert this
  decide

/-- A partial send with no pipe attached: explicit form of the write
loop's result (stops after the one consumed send result). -/
theorem write_loop_partial_send_eq (t : Tunables) (s : SI) (n : Nat)
    (hpipe : s.ob.pipe = none)
    (hwl4 : s.conn_wait_l4 = false)
    (hn : 0 < n)
    (hlt : n < send_mx s.ob) :
    ∀ tail : List SendRes,
      sock_raw_write_loop t none (SendRes.ok n :: tail) s =
        (0, {s with ob := send_update s.ob n}) := by
  have hmx : send_mx s.ob ≤ s.ob.o := by
    unfold send_mx
    split_ifs <;> omega
  have ho : ¬(s.ob.o = 0) := by omega
  have hno : ¬(n = 0) := by omega
  have honz : (send_update s.ob n).o = s.ob.o - n := by
    unfold send_update
    dsimp only
    split_ifs <;> rfl
  have hbo : ¬((send_update s.ob n).o = 0) := by
    rw [honz]
    omega
  intro tail
  unfold sock_raw_write_loop write_buf_enter
  rw [hpipe]
  dsimp only
  rw [if_neg ho]
  rw [send_buf_loop.eq_def]
  dsimp only
  rw [if_neg hno, if_neg (by simp [hwl4] : ¬(s.conn_wait_l4 = true)), if_neg hbo, if_pos hlt]

/-- The reconciliation step requests write readiness whenever the output
is neither shut nor empty. -/
theorem data_finish_send_active (now : Nat) (s : SI)
    (h1 : s.ob.shutw = false) (h2 : s.ob.out_empty = false) :
    (sock_raw_data_finish now s).send_active = true := by
  have hob : (data_finish_read now s).ob = s.ob := by
    unfold data_finish_read
    dsimp only
    split_ifs <;> rfl
  unfold sock_raw_data_finish data_finish_write
  rw [hob]
  simp only [h1, h2, Bool.false_eq_true, if_false]
  split_ifs <;> rfl

/-- Claim C9: in the copy write loop with no pipe attached, a partial
send (the socket accepting `n` bytes, fewer than the contiguous sendable
extent) decrements pending output by exactly `n`, leaves the
output-empty, expect-more and send-immediately flags untouched, stops the
loop without consuming any further send result, returns success, and the
subsequent reconciliation step requests write readiness. -/
theorem claim_C9_partial_send (t : Tunables) (s : SI) (n : Nat) (rest : List SendRes) (now : Nat)
    (hpipe : s.ob.pipe = none)
    (hwl4 : s.conn_wait_l4 = false)
    (hoe : s.ob.out_empty = false)
    (hshutw : s.ob.shutw = false)
    (hn : 0 < n)
    (hlt : n < send_mx s.ob) :
    (sock_raw_write_loop t none (SendRes.ok n :: rest) s).1 = 0 ∧
    (sock_raw_write_loop t none (SendRes.ok n :: rest) s).2.ob.o = s.ob.o - n ∧
    (sock_raw_write_loop t none (SendRes.ok n :: rest) s).2.ob.out_empty = s.ob.out_empty ∧
    (sock_raw_write_loop t none (SendRes.ok n :: rest) s).2.ob.expect_more = s.ob.expect_more ∧
    (sock_raw_write_loop t none (SendRes.ok n :: rest) s).2.ob.send_dontwait = s.ob.send_dontwait ∧
    sock_raw_write_loop t none (SendRes.ok n :: rest) s =
      sock_raw_write_loop t none [SendRes.ok n] s ∧
    (sock_raw_data_finish now (sock_raw_write_loop t none (SendRes.ok n :: rest) s).2).send_active
      = true := by
  have key := write_loop_partial_send_eq t s n hpipe hwl4 hn hlt
  have hou : ∀ (b : Buffer) (m : Nat),
      (send_update b m).o = b.o - m ∧
      (send_update b m).out_empty = b.out_empty ∧
      (send_update b m).expect_more = b.expect_more ∧
      (send_update b m).send_dontwait = b.send_dontwait ∧
      (send_update b m).shutw = b.shutw := by
    intro b m
    unfold send_update
    dsimp only
    split_ifs <;> exact ⟨rfl, rfl, rfl, rfl, rfl⟩
  rw [key rest, key ([] : List SendRes)]
  refine ⟨rfl, (hou s.ob n).1, (hou s.ob n).2.1, (hou s.ob n).2.2.1, (hou s.ob n).2.2.2.1,
    rfl, ?_⟩
  refine data_finish_send_active now _ ?_ ?_
  · exact ((hou s.ob n).2.2.2.2).trans hshutw
  · exact ((hou s.ob n).2.1).trans hoe

/-- State with 1000 pending output bytes laid out contiguously. -/
def c9fix : SI := {si0 with ob := {buf0 with size := 2000, o := 1000, p := 1000}}

/-- Witness for C9: the spec scenario — a send of 1000 bytes with the
socket accepting only 400 leaves pending output at 600, touches none of
the completion flags, consumes no further send result, and the
reconciliation step requests write readiness. -/
theorem claim_C9_witness :
    (sock_raw_write_loop tun0 none [SendRes.ok 400, SendRes.ok 600] c9fix).2.ob.o = c9fix.ob.o - 400 ∧
    (sock_raw_write_loop tun0 none [SendRes.ok 400, SendRes.ok 600] c9fix).2.ob.out_empty
      = c9fix.ob.out_empty ∧
    sock_raw_write_loop tun0 none [SendRes.ok 400, SendRes.ok 600] c9fix =
      sock_raw_write_loop tun0 none [SendRes.ok 400] c9fix ∧
    (sock_raw_data_finish 100
      (sock_raw_write_loop tun0 none [SendRes.ok 400, SendRes.ok 600] c9fix).2).send_active = true :=
  have h := claim_C9_partial_send tun0 c9fix 400 [SendRes.ok 600] 100
    (by decide) (by decide) (by decide) (by decide) (by decide) (by decide)
  ⟨h.2.1, h.2.2.1, h.2.2.2.2.2.1, h.2.2.2.2.2.2⟩

/-- Zero-copy fully disabled: the kernel-splicing flag of both buffers
and the interface splice capability are all clear. -/
def spliceDisabled (s : SI) : Prop :=
  s.ib.kern_splicing = false ∧ s.ob.kern_splicing = false ∧ s.cap_splice = false

/-- A step from `s0` to `s1` never turns a zero-copy flag on: each of the
three flags can be set in `s1` only if it already was in `s0`. -/
def noSpliceEnable (s0 s1 : SI) : Prop :=
  (s1.ib.kern_splicing = true → s0.ib.kern_splicing = true) ∧
  (s1.ob.kern_splicing = true → s0.ob.kern_splicing = true) ∧
  (s1.cap_splice = true → s0.cap_splice = true)

theorem nse_refl (s : SI) : noSpliceEnable s s :=
  ⟨id, id, id⟩

theorem nse_trans {s0 s1 s2 : SI}
    (h01 : noSpliceEnable s0 s1) (h12 : noSpliceEnable s1 s2) : noSpliceEnable s0 s2 :=
  ⟨fun h => h01.1 (h12.1 h), fun h => h01.2.1 (h12.2.1 h), fun h => h01.2.2 (h12.2.2 h)⟩

theorem nse_disabled {s0 s1 : SI}
    (h : noSpliceEnable s0 s1) (hd : spliceDisabled s0) : spliceDisabled s1 := by
  obtain ⟨h1, h2, h3⟩ := h
  obtain ⟨d1, d2, d3⟩ := hd
  refine ⟨?_, ?_, ?_⟩
  · cases hx : s1.ib.kern_splicing
    · rfl
    · exact absurd (h1 hx) (by simp [d1])
  · cases hx : s1.ob.kern_splicing
    · rfl
    · exact absurd (h2 hx) (by simp [d2])
  · cases hx : s1.cap_splice
    · rfl
    · exact absurd (h3 hx) (by simp [d3])

theorem classify_full_ks (b : Buffer) (n : Nat) :
    (classify_full b n).kern_splicing = b.kern_splicing := by
  unfold classify_full
  split_ifs <;> rfl

theorem classify_short_ks (b : Buffer) (n : Nat) :
    (classify_short b n).kern_splicing = b.kern_splicing := by
  unfold classify_short
  split_ifs <;> rfl

theorem read_forward_ks (b : Buffer) (ret : Nat) :
    (read_forward b ret).kern_splicing = b.kern_splicing := by
  unfold read_forward b_adv
  split_ifs
  · cases htf : b.to_forward <;> simp [htf]
  · rfl

/-- The read-shutdown sequence never touches the zero-copy flags. -/
theorem read0_splice_flags (s : SI) :
    (sock_raw_read0 s).ib.kern_splicing = s.ib.kern_splicing ∧
    (sock_raw_read0 s).ob.kern_splicing = s.ob.kern_splicing ∧
    (sock_raw_read0 s).cap_splice = s.cap_splice := by
  unfold sock_raw_read0 do_close
  dsimp only
  split_ifs <;> exact ⟨rfl, rfl, rfl⟩

theorem out_shutdown_r_splice_flags (s : SI) :
    (out_shutdown_r s).ib.kern_splicing = s.ib.kern_splicing ∧
    (out_shutdown_r s).ob.kern_splicing = s.ob.kern_splicing ∧
    (out_shutdown_r s).cap_splice = s.cap_splice := by
  unfold out_shutdown_r
  dsimp only
  split_ifs <;> simpa using read0_splice_flags _

theorem out_error_splice_flags (s : SI) :
    (out_error s).ib.kern_splicing = s.ib.kern_splicing ∧
    (out_error s).ob.kern_splicing = s.ob.kern_splicing ∧
    (out_error s).cap_splice = s.cap_splice :=
  ⟨rfl, rfl, rfl⟩

/-- The splice loop can only clear zero-copy flags, never set them. -/
theorem splice_loop_nse (t : Tunables) :
    ∀ (tr : List SpliceRes) (s : SI), noSpliceEnable s (splice_loop t tr s).2 := by
  intro tr
  induction tr with
  | nil =>
    intro s
    rw [splice_loop.eq_def]
    dsimp only
    split_ifs <;> exact nse_refl s
  | cons r rest ih =>
    intro s
    rw [splice_loop.eq_def]
    dsimp only
    by_cases hmax : spliceMax s.ib = 0
    · rw [if_pos hmax]
      exact nse_refl s
    · rw [if_neg hmax]
      cases r with
      | closed => exact ⟨id, id, id⟩
      | again =>
        dsimp only
        split_ifs <;> exact ⟨id, id, id⟩
      | notsup =>
        refine ⟨fun h => ?_, fun h => ?_, fun h => ?_⟩
        · simp [put_pipe_ib] at h
        · simpa [put_pipe_ib] using h
        · simp [put_pipe_ib] at h
      | err => exact ⟨id, id, id⟩
      | ok n =>
        dsimp only
        split_ifs
        · exact ⟨id, id, id⟩
        · refine nse_trans ?_ (ih _)
          exact ⟨id, id, id⟩

/-- The whole zero-copy read attempt can only clear zero-copy flags. -/
theorem splice_in_nse (t : Tunables) (tr : List SpliceRes) (s : SI) :
    noSpliceEnable s (sock_raw_splice_in t tr s).2 := by
  unfold sock_raw_splice_in
  dsimp only
  by_cases g1 : s.ib.to_forward.isZero = true
  · rw [if_pos g1]
    exact nse_refl s
  · rw [if_neg g1]
    by_cases g2 : s.ib.kern_splicing = false
    · rw [if_pos g2]
      exact nse_refl s
    · rw [if_neg g2]
      by_cases g3 : s.ib.i + s.ib.o ≠ 0
      · rw [if_pos g3]
        exact ⟨id, id, id⟩
      · rw [if_neg g3]
        cases hp : s.ib.pipe with
        | none =>
          simp only [hp]
          by_cases hpool : t.maxpipes ≤ s.pipes_used ∨ t.get_pipe_ok = false
          · rw [if_pos hpool]
            exact ⟨fun h => by simp at h, id, id⟩
          · rw [if_neg hpool]
            dsimp only
            have h12 : noSpliceEnable s
                (splice_loop t tr
                  {s with pipes_used := s.pipes_used + 1, ib := {s.ib with pipe := some 0}}).2 :=
              nse_trans ⟨id, id, id⟩ (splice_loop_nse t tr _)
            split_ifs
            · exact nse_trans h12 ⟨fun h => h, fun h => h, fun h => h⟩
            · exact h12
        | some d =>
          simp only [hp]
          have h2 := splice_loop_nse t tr s
          split_ifs
          · exact nse_trans h2 ⟨fun h => h, fun h => h, fun h => h⟩
          · exact h2

theorem copy_realign_ks (b : Buffer) : (copy_realign b).kern_splicing = b.kern_splicing := by
  unfold copy_realign
  split_ifs <;> rfl

set_option maxHeartbeats 2000000 in
/-- One copy-read iteration never touches the zero-copy flags. -/
theorem copy_iter_splice_flags (t : Tunables) (rp cr : Nat) (r : RecvRes) (s : SI) :
    (copy_iter t rp cr r s).1.ib.kern_splicing = s.ib.kern_splicing ∧
    (copy_iter t rp cr r s).1.ob.kern_splicing = s.ob.kern_splicing ∧
    (copy_iter t rp cr r s).1.cap_splice = s.cap_splice := by
  cases r with
  | again =>
    unfold copy_iter
    split_ifs <;> exact ⟨copy_realign_ks s.ib, rfl, rfl⟩
  | err =>
    unfold copy_iter out_error
    exact ⟨copy_realign_ks s.ib, rfl, rfl⟩
  | ok n =>
    simp only [copy_iter]
    generalize hb1 : copy_realign s.ib = b1
    have hb1k : b1.kern_splicing = s.ib.kern_splicing := hb1 ▸ copy_realign_ks s.ib
    by_cases hn : n = 0
    · rw [if_pos hn]
      refine ⟨?_, ?_, ?_⟩ <;>
        simp [out_shutdown_r_splice_flags, hb1k]
    · rw [if_neg hn]
      dsimp only
      generalize hb3 : read_forward {b1 with i := b1.i + n} n = b3
      have hb3k : b3.kern_splicing = s.ib.kern_splicing := by
        rw [← hb3, read_forward_ks]
        exact hb1k
      generalize hb4 : ({b3 with read_part := true, total := b3.total + n} : Buffer) = b4
      have hb4k : b4.kern_splicing = s.ib.kern_splicing := by
        rw [← hb4]
        exact hb3k
      split_ifs <;>
        (refine ⟨?_, ?_, ?_⟩ <;>
          simp [classify_full_ks, classify_short_ks, hb4k, out_shutdown_r_splice_flags,
            apply_ite Buffer.kern_splicing, apply_ite SI.ob, apply_ite SI.ib,
            apply_ite SI.cap_splice, ite_self])

/-- The copy-read loop never touches the zero-copy flags. -/
theorem copy_loop_splice_flags (t : Tunables) :
    ∀ (rtr : List RecvRes) (rp cr : Nat) (s : SI),
      (copy_loop t rtr rp cr s).ib.kern_splicing = s.ib.kern_splicing ∧
      (copy_loop t rtr rp cr s).ob.kern_splicing = s.ob.kern_splicing ∧
      (copy_loop t rtr rp cr s).cap_splice = s.cap_splice := by
  intro rtr
  induction rtr with
  | nil =>
    intro rp cr s
    rw [copy_loop.eq_def]
    dsimp only
    split_ifs <;>
      first
        | exact ⟨rfl, rfl, rfl⟩
        | exact ⟨copy_realign_ks s.ib, rfl, rfl⟩
  | cons r rest ih =>
    intro rp cr s
    rw [copy_loop.eq_def]
    dsimp only
    split_ifs
    · exact ⟨rfl, rfl, rfl⟩
    · have hiter := copy_iter_splice_flags t rp cr r s
      cases hres : copy_iter t rp cr r s with
      | mk s1 cont =>
        rw [hres] at hiter
        cases cont with
        | none => exact hiter
        | some cur =>
          have hrec := ih (rp - 1) cur s1
          exact ⟨hrec.1.trans hiter.1, hrec.2.1.trans hiter.2.1, hrec.2.2.trans hiter.2.2⟩

/-- The read-event handler can only clear zero-copy flags. -/
theorem read_nse (t : Tunables) (str : List SpliceRes) (rtr : List RecvRes) (s : SI) :
    noSpliceEnable s (sock_raw_read t str rtr s) := by
  unfold sock_raw_read
  dsimp only
  split_ifs
  · exact ⟨fun h => h, fun h => h, fun h => h⟩
  · have h := out_shutdown_r_splice_flags s
    exact ⟨fun hx => h.1 ▸ hx, fun hx => h.2.1 ▸ hx, fun hx => h.2.2 ▸ hx⟩
  · exact nse_refl s
  · have h := out_shutdown_r_splice_flags s
    exact ⟨fun hx => h.1 ▸ hx, fun hx => h.2.1 ▸ hx, fun hx => h.2.2 ▸ hx⟩
  all_goals
    have hsp := splice_in_nse t str s
  · exact nse_trans hsp ⟨fun h => h, fun h => h, fun h => h⟩
  · refine nse_trans hsp ?_
    have h := out_shutdown_r_splice_flags (sock_raw_splice_in t str s).2
    exact ⟨fun hx => h.1 ▸ hx, fun hx => h.2.1 ▸ hx, fun hx => h.2.2 ▸ hx⟩
  · exact nse_trans hsp (nse_refl _)
  · refine nse_trans hsp ?_
    have h := copy_loop_splice_flags t rtr t.max_read_poll 0 (sock_raw_splice_in t str s).2
    exact ⟨fun hx => h.1 ▸ hx, fun hx => h.2.1 ▸ hx, fun hx => h.2.2 ▸ hx⟩
  · have h := copy_loop_splice_flags t rtr t.max_read_poll 0 s
    exact ⟨fun hx => h.1 ▸ hx, fun hx => h.2.1 ▸ hx, fun hx => h.2.2 ▸ hx⟩

theorem send_update_ks (b : Buffer) (n : Nat) :
    (send_update b n).kern_splicing = b.kern_splicing := by
  unfold send_update
  dsimp only
  split_ifs <;> rfl

/-- The buffered send loop never touches the zero-copy flags. -/
theorem send_buf_loop_splice_flags (t : Tunables) :
    ∀ (str : List SendRes) (wp : Nat) (s : SI),
      (send_buf_loop t str wp s).2.ib.kern_splicing = s.ib.kern_splicing ∧
      (send_buf_loop t str wp s).2.ob.kern_splicing = s.ob.kern_splicing ∧
      (send_buf_loop t str wp s).2.cap_splice = s.cap_splice := by
  intro str
  induction str with
  | nil =>
    intro wp s
    simp only [send_buf_loop]
    exact ⟨trivial, trivial, trivial⟩
  | cons r rest ih =>
    intro wp s
    cases r with
    | again =>
      simp only [send_buf_loop]
      exact ⟨trivial, trivial, trivial⟩
    | err =>
      simp only [send_buf_loop]
      exact ⟨trivial, trivial, trivial⟩
    | ok n =>
      simp only [send_buf_loop]
      split_ifs <;>
        first
          | exact ⟨rfl, rfl, rfl⟩
          | exact ⟨((ih _ _).1).trans rfl, ((ih _ _).2.1).trans (send_update_ks _ _),
              ((ih _ _).2.2).trans rfl⟩
          | (refine ⟨?_, ?_, ?_⟩ <;>
              simp [send_update_ks, apply_ite Buffer.kern_splicing, apply_ite SI.ib,
                apply_ite SI.ob, apply_ite SI.cap_splice, ite_self])

/-- The write loop never touches the zero-copy flags. -/
theorem write_loop_splice_flags (t : Tunables) (pres : Option SendRes) (str : List SendRes)
    (s : SI) :
    (sock_raw_write_loop t pres str s).2.ib.kern_splicing = s.ib.kern_splicing ∧
    (sock_raw_write_loop t pres str s).2.ob.kern_splicing = s.ob.kern_splicing ∧
    (sock_raw_write_loop t pres str s).2.cap_splice = s.cap_splice := by
  unfold sock_raw_write_loop
  cases hp : s.ob.pipe with
  | none =>
    dsimp only
    unfold write_buf_enter
    by_cases ho : s.ob.o = 0
    · rw [if_pos ho]
      exact ⟨rfl, rfl, rfl⟩
    · rw [if_neg ho]
      exact send_buf_loop_splice_flags t str t.max_write_poll s
  | some d =>
    cases pres with
    | none => exact ⟨rfl, rfl, rfl⟩
    | some r =>
      cases r with
      | again => exact ⟨rfl, rfl, rfl⟩
      | err => exact ⟨rfl, rfl, rfl⟩
      | ok n =>
        dsimp only
        by_cases hn : n = 0
        · rw [if_pos hn]
          exact ⟨rfl, rfl, rfl⟩
        · rw [if_neg hn]
          by_cases hd : d - n = 0
          · rw [if_pos hd]
            unfold write_buf_enter put_pipe_ob
            dsimp only
            split_ifs <;>
              first
                | exact ⟨rfl, rfl, rfl⟩
                | (have h := send_buf_loop_splice_flags t str t.max_write_poll
                      (put_pipe_ob {s with ob := {s.ob with write_part := true, pipe := some (d - n)}})
                   exact ⟨h.1.trans rfl, h.2.1.trans rfl, h.2.2.trans rfl⟩)
          · rw [if_neg hd]
            split_ifs <;> exact ⟨rfl, rfl, rfl⟩

/-- The write-event handler never touches the zero-copy flags. -/
theorem write_splice_flags (t : Tunables) (pres : Option SendRes) (str : List SendRes) (s : SI) :
    (sock_raw_write t pres str s).ib.kern_splicing = s.ib.kern_splicing ∧
    (sock_raw_write t pres str s).ob.kern_splicing = s.ob.kern_splicing ∧
    (sock_raw_write t pres str s).cap_splice = s.cap_splice := by
  unfold sock_raw_write out_error
  dsimp only
  split_ifs <;>
    first
      | exact ⟨rfl, rfl, rfl⟩
      | (have h := write_loop_splice_flags t pres str s
         exact ⟨h.1, h.2.1, h.2.2⟩)

/-- The receive-readiness check never touches the zero-copy flags. -/
theorem chk_rcv_splice_flags (s : SI) :
    (sock_raw_chk_rcv s).ib.kern_splicing = s.ib.kern_splicing ∧
    (sock_raw_chk_rcv s).ob.kern_splicing = s.ob.kern_splicing ∧
    (sock_raw_chk_rcv s).cap_splice = s.cap_splice := by
  unfold sock_raw_chk_rcv
  dsimp only
  split_ifs <;> exact ⟨rfl, rfl, rfl⟩

/-- The reconciliation step never touches the zero-copy flags. -/
theorem data_finish_splice_flags (now : Nat) (s : SI) :
    (sock_raw_data_finish now s).ib.kern_splicing = s.ib.kern_splicing ∧
    (sock_raw_data_finish now s).ob.kern_splicing = s.ob.kern_splicing ∧
    (sock_raw_data_finish now s).cap_splice = s.cap_splice := by
  have hr : ∀ x : SI,
      (data_finish_read now x).ib.kern_splicing = x.ib.kern_splicing ∧
      (data_finish_read now x).ob.kern_splicing = x.ob.kern_splicing ∧
      (data_finish_read now x).cap_splice = x.cap_splice := by
    intro x
    unfold data_finish_read
    dsimp only
    split_ifs <;> exact ⟨rfl, rfl, rfl⟩
  have hw : ∀ x : SI,
      (data_finish_write now x).ib.kern_splicing = x.ib.kern_splicing ∧
      (data_finish_write now x).ob.kern_splicing = x.ob.kern_splicing ∧
      (data_finish_write now x).cap_splice = x.cap_splice := by
    intro x
    unfold data_finish_write
    dsimp only
    split_ifs <;> exact ⟨rfl, rfl, rfl⟩
  unfold sock_raw_data_finish
  exact ⟨((hw _).1).trans (hr s).1, ((hw _).2.1).trans (hr s).2.1, ((hw _).2.2).trans (hr s).2.2⟩

/-- Waking the owner never touches the zero-copy flags. -/
theorem wake_owner_splice_flags (s : SI) :
    (wake_owner s).ib.kern_splicing = s.ib.kern_splicing ∧
    (wake_owner s).ob.kern_splicing = s.ob.kern_splicing ∧
    (wake_owner s).cap_splice = s.cap_splice := by
  unfold wake_owner
  split_ifs <;> exact ⟨rfl, rfl, rfl⟩

theorem chk_snd_reg_splice_flags (now : Nat) (s1 : SI) :
    (chk_snd_reg now s1).ib.kern_splicing = s1.ib.kern_splicing ∧
    (chk_snd_reg now s1).ob.kern_splicing = s1.ob.kern_splicing ∧
    (chk_snd_reg now s1).cap_splice = s1.cap_splice := by
  unfold chk_snd_reg
  dsimp only
  split_ifs <;> exact ⟨rfl, rfl, rfl⟩

theorem chk_snd_activity_splice_flags (now : Nat) (s2 : SI) :
    (chk_snd_activity now s2).ib.kern_splicing = s2.ib.kern_splicing ∧
    (chk_snd_activity now s2).ob.kern_splicing = s2.ob.kern_splicing ∧
    (chk_snd_activity now s2).cap_splice = s2.cap_splice := by
  unfold chk_snd_activity
  dsimp only
  split_ifs <;> exact ⟨rfl, rfl, rfl⟩

theorem chk_snd_wake_splice_flags (s3 : SI) :
    (chk_snd_wake s3).ib.kern_splicing = s3.ib.kern_splicing ∧
    (chk_snd_wake s3).ob.kern_splicing = s3.ob.kern_splicing ∧
    (chk_snd_wake s3).cap_splice = s3.cap_splice := by
  unfold chk_snd_wake
  split_ifs <;>
    first
      | exact ⟨rfl, rfl, rfl⟩
      | exact wake_owner_splice_flags s3

/-- The tail of the send-readiness check never touches the zero-copy
flags. -/
theorem chk_snd_post_splice_flags (t : Tunables) (now : Nat) (rs : Int × SI) :
    (chk_snd_post t now rs).ib.kern_splicing = rs.2.ib.kern_splicing ∧
    (chk_snd_post t now rs).ob.kern_splicing = rs.2.ob.kern_splicing ∧
    (chk_snd_post t now rs).cap_splice = rs.2.cap_splice := by
  unfold chk_snd_post
  dsimp only
  split_ifs
  · refine ⟨?_, ?_, ?_⟩ <;>
      simp [wake_owner_splice_flags]
  · refine ⟨?_, ?_, ?_⟩ <;>
      simp [wake_owner_splice_flags]
  · have h1 := chk_snd_reg_splice_flags now rs.2
    have h2 := chk_snd_activity_splice_flags now (chk_snd_reg now rs.2)
    have h3 := chk_snd_wake_splice_flags (chk_snd_activity now (chk_snd_reg now rs.2))
    exact ⟨h3.1.trans (h2.1.trans h1.1), h3.2.1.trans (h2.2.1.trans h1.2.1),
      h3.2.2.trans (h2.2.2.trans h1.2.2)⟩

/-- The send-readiness check never touches the zero-copy flags. -/
theorem chk_snd_splice_flags (t : Tunables) (now : Nat) (pres : Option SendRes)
    (str : List SendRes) (s : SI) :
    (sock_raw_chk_snd t now pres str s).ib.kern_splicing = s.ib.kern_splicing ∧
    (sock_raw_chk_snd t now pres str s).ob.kern_splicing = s.ob.kern_splicing ∧
    (sock_raw_chk_snd t now pres str s).cap_splice = s.cap_splice := by
  have hwl := write_loop_splice_flags t pres str s
  have hpost := chk_snd_post_splice_flags t now (sock_raw_write_loop t pres str s)
  unfold sock_raw_chk_snd
  split_ifs
  · exact ⟨rfl, rfl, rfl⟩
  · exact ⟨rfl, rfl, rfl⟩
  · exact ⟨rfl, rfl, rfl⟩
  · exact ⟨hpost.1.trans hwl.1, hpost.2.1.trans hwl.2.1, hpost.2.2.trans hwl.2.2⟩

/-- Explicit result of a zero-copy read attempt whose first `splice`
reports not-supported (ENOSYS/EINVAL, lines 178-185): both capability
flags are cleared, the pipe is returned to the pool, and the caller is
told to retry via the copy path. -/
theorem splice_in_notsup_eq (t : Tunables) (tr : List SpliceRes) (s : SI) (d : Nat)
    (h1 : s.ib.to_forward.isZero = false)
    (h2 : s.ib.kern_splicing = true)
    (h3 : s.ib.i + s.ib.o = 0)
    (h4 : s.ib.pipe = some d) :
    sock_raw_splice_in t (SpliceRes.notsup :: tr) s =
      (-1, { s with
             cap_splice := false
             pipes_used := s.pipes_used - 1
             ib := {s.ib with kern_splicing := false, pipe := none} }) := by
  have hsm : ¬(spliceMax s.ib = 0) := by
    unfold spliceMax
    cases htf : s.ib.to_forward with
    | inf => simp [MAX_SPLICE_AT_ONCE]
    | fin k =>
      cases k with
      | zero =>
        rw [htf] at h1
        simp [Fwd.isZero] at h1
      | succ m => simp
  unfold sock_raw_splice_in
  rw [if_neg (by simp [h1]), if_neg (by simp [h2]), if_neg (by simp [h3])]
  simp only [h4]
  rw [splice_loop.eq_def]
  dsimp only
  rw [if_neg hsm]
  dsimp only
  rw [if_neg (by simp [put_pipe_ib])]
  simp [put_pipe_ib]

/-- Claim C6: a splice failing with a not-supported error clears the
buffer's kernel-splicing flag and the interface's splice capability,
releases the pipe and signals the caller to retry via the Copy path
(`-1`); and no operation of this core (splice attempt, read and write
handlers, write loop, read shutdown, reconciliation, or either
cross-interface notification) ever sets those flags again, so once
disabled, zero-copy stays disabled. -/
theorem claim_C6_notsup_permanent :
    (∀ (t : Tunables) (tr : List SpliceRes) (s : SI) (d : Nat),
      s.ib.to_forward.isZero = false → s.ib.kern_splicing = true → s.ib.i + s.ib.o = 0 →
      s.ib.pipe = some d →
      sock_raw_splice_in t (SpliceRes.notsup :: tr) s =
        (-1, { s with
               cap_splice := false
               pipes_used := s.pipes_used - 1
               ib := {s.ib with kern_splicing := false, pipe := none} })) ∧
    (∀ (t : Tunables) (tr : List SpliceRes) (s : SI),
      spliceDisabled s → spliceDisabled (sock_raw_splice_in t tr s).2) ∧
    (∀ (t : Tunables) (str : List SpliceRes) (rtr : List RecvRes) (s : SI),
      spliceDisabled s → spliceDisabled (sock_raw_read t str rtr s)) ∧
    (∀ (t : Tunables) (pres : Option SendRes) (str : List SendRes) (s : SI),
      spliceDisabled s → spliceDisabled (sock_raw_write_loop t pres str s).2) ∧
    (∀ (t : Tunables) (pres : Option SendRes) (str : List SendRes) (s : SI),
      spliceDisabled s → spliceDisabled (sock_raw_write t pres str s)) ∧
    (∀ s : SI, spliceDisabled s → spliceDisabled (sock_raw_read0 s)) ∧
    (∀ (now : Nat) (s : SI), spliceDisabled s → spliceDisabled (sock_raw_data_finish now s)) ∧
    (∀ s : SI, spliceDisabled s → spliceDisabled (sock_raw_chk_rcv s)) ∧
    (∀ (t : Tunables) (now : Nat) (pres : Option SendRes) (str : List SendRes) (s : SI),
      spliceDisabled s → spliceDisabled (sock_raw_chk_snd t now pres str s)) := by
  refine ⟨splice_in_notsup_eq, ?_, ?_, ?_, ?_, ?_, ?_, ?_, ?_⟩
  · intro t tr s hd
    exact nse_disabled (splice_in_nse t tr s) hd
  · intro t str rtr s hd
    exact nse_disabled (read_nse t str rtr s) hd
  · intro t pres str s hd
    have h := write_loop_splice_flags t pres str s
    exact ⟨h.1.trans hd.1, h.2.1.trans hd.2.1, h.2.2.trans hd.2.2⟩
  · intro t pres str s hd
    have h := write_splice_flags t pres str s
    exact ⟨h.1.trans hd.1, h.2.1.trans hd.2.1, h.2.2.trans hd.2.2⟩
  · intro s hd
    have h := read0_splice_flags s
    exact ⟨h.1.trans hd.1, h.2.1.trans hd.2.1, h.2.2.trans hd.2.2⟩
  · intro now s hd
    have h := data_finish_splice_flags now s
    exact ⟨h.1.trans hd.1, h.2.1.trans hd.2.1, h.2.2.trans hd.2.2⟩
  · intro s hd
    have h := chk_rcv_splice_flags s
    exact ⟨h.1.trans hd.1, h.2.1.trans hd.2.1, h.2.2.trans hd.2.2⟩
  · intro t now pres str s hd
    have h := chk_snd_splice_flags t now pres str s
    exact ⟨h.1.trans hd.1, h.2.1.trans hd.2.1, h.2.2.trans hd.2.2⟩

/-- Splice-eligible state with a pipe attached, used for the C6
witness. -/
def c6fix : SI :=
  { si0 with
    pipes_used := 1
    ib := {buf0 with to_forward := Fwd.fin 100, kern_splicing := true, pipe := some 0} }

/-- Witness for C6: the not-supported splice at a concrete state clears
both capability flags, releases the pipe and returns the switch-to-copy
status. -/
theorem claim_C6_witness :
    sock_raw_splice_in tun0 [SpliceRes.notsup] c6fix =
      (-1, { c6fix with
             cap_splice := false
             pipes_used := c6fix.pipes_used - 1
             ib := {c6fix.ib with kern_splicing := false, pipe := none} }) :=
  claim_C6_notsup_permanent.1 tun0 [] c6fix 0 (by decide) (by decide) (by decide) (by decide)
